import Mathlib

/-!
# IoT temperature monitor (BitDogLab): a shallow embedding of `main.c`

The firmware reads the RP2040 temperature sensor, shows the reading on an OLED
display, drives an RGB LED and uploads the reading with an HTTP GET over lwIP.

Conventions of the embedding.

* A C string is a `List Char`; every element stands for one byte (`char`), so
  `strlen` is `List.length`.  The two string literals of `main.c` that hold the
  letter a-tilde are written with its two UTF-8 bytes `0xC3 0xA3`, as they are
  stored in the source file.
* `int` is a 32-bit two's-complement integer, `wrap32` is its wrap-around.
* `float` is IEEE-754 binary32 with round-to-nearest-even.  A finite binary32
  number is `mant * 2^(bexp - 149)` with a sign; the record `F32` holds these.
  The exponent range is not bounded above in `F32.round`; `F32.isFinite` says
  that a value is below the binary32 overflow threshold, and the theorems on
  `read_temperature` establish it for every intermediate result.
* The hardware, the SSD1306 driver, the Wi-Fi driver and lwIP are the
  environment.  Every call into them is appended to `World.log`; the part of
  their state the program can observe is kept in the other fields of `World`.
-/

namespace BitDogLab

/-! ## C strings and machine integers -/

/-- C string: the bytes before the terminating NUL. -/
abbrev CString := List Char

/-- Largest value of a 32-bit `int`. -/
def INT_MAX : Int := 2147483647

/-- Two's-complement wrap of an integer into the range of a 32-bit `int`. -/
def wrap32 (v : Int) : Int := (v + 2147483648) % 4294967296 - 2147483648

/-! ## Constants of `parametros.h` -/

def THINGSPEAK_HOST : CString := "api.thingspeak.com".toList
def THINGSPEAK_PORT : Nat := 80
def API_KEY : CString := "2MNYL2MZ3NHEAR6P".toList
def LED_R_PIN : Nat := 13
def LED_G_PIN : Nat := 12
def LED_B_PIN : Nat := 11
def BUTTON_PIN : Nat := 5

/-! ## binary32 arithmetic

The tests of this section are written with the Boolean functions `Nat.blt`,
`Nat.ble` and `Nat.beq`, which evaluate directly on binary numerals. -/

/-- Finite binary32 number `(-1)^neg * mant * 2^(bexp - 149)`: `bexp` is the
exponent of the last place above that of the smallest subnormal, `2^-149`.
Results of `F32.round` are canonical: zero is `(false, 0, 0)`, a subnormal has
`bexp = 0`, a normal number has `2^23 <= mant < 2^24`.  The sign of a zero is
not kept. -/
structure F32 where
  neg : Bool
  mant : Nat
  bexp : Nat
  deriving DecidableEq, Repr

/-- Rational value of a binary32 number. -/
def F32.toRat (a : F32) : ℚ :=
  (if a.neg then -1 else 1) * ((a.mant : ℚ) * 2 ^ a.bexp) / 2 ^ 149

/-- Nearest natural number to `num / den`, ties to the even one (`den > 0`). -/
def roundHalfEven (num den : Nat) : Nat :=
  let q := num / den
  let r := num % den
  bif Nat.blt (2 * r) den then q
  else bif Nat.blt den (2 * r) then q + 1
  else bif Nat.beq (q % 2) 0 then q
  else q + 1

/-- Binary logarithm of `n < 2^(2^i)` by bisection of the exponent: the bit
`2^j` of the result is set, for `j = i-1, ..., 0`, when what is left of `n`
reaches `2^(2^j)`. -/
def log2Bits : Nat → Nat → Nat
  | 0, _ => 0
  | i + 1, n =>
    bif Nat.ble (2 ^ (2 ^ i)) n then log2Bits i (n / 2 ^ (2 ^ i)) + 2 ^ i else log2Bits i n

/-- Least `l` at or above the start value with `n < 2^(2^l)`; `fuel` bounds the
search and `fuel = n` is always enough. -/
def log2Levels : Nat → Nat → Nat → Nat
  | 0, l, _ => l
  | fuel + 1, l, n => bif Nat.blt n (2 ^ (2 ^ l)) then l else log2Levels fuel (l + 1) n

/-- Floor of the binary logarithm (`0` for `n = 0`). -/
def log2 (n : Nat) : Nat := log2Bits (log2Levels n 6 n) n

/-- Round the exact value `n * 2^k / (den * 2^dk)`, counted in units of
`2^-149`, to the nearest binary32 number, ties to even (`den > 0`).

With `a = log2 n` and `c = log2 den` the value lies in the binade
`b = a + k - c - dk - adj`, where `adj = 1` when `n / den < 2^(a - c)`.  A
24-bit significand puts the last place at `u = b - 23`, and at `0` below the
normal range (the subtraction is truncated).  The significand is the exact
value divided by `2^u`, rounded; a carry to `2^24` moves to the next binade.
The exponent is not bounded above here, see `F32.isFinite`. -/
def F32.round (neg : Bool) (n k den dk : Nat) : F32 :=
  let a := log2 n
  let c := log2 den
  let adj := bif Nat.blt (n * 2 ^ c) (den * 2 ^ a) then 1 else 0
  let u := (a + k) - (c + dk + adj + 23)
  let t := dk + u
  let m := bif Nat.ble t k then roundHalfEven (n * 2 ^ (k - t)) den
           else roundHalfEven n (den * 2 ^ (t - k))
  bif Nat.beq m 0 then ⟨false, 0, 0⟩
  else bif Nat.beq m (2 ^ 24) then ⟨neg, 2 ^ 23, u + 1⟩
  else ⟨neg, m, u⟩

/-- Below the binary32 overflow threshold `2^128`: where this fails binary32
arithmetic gives an infinity. -/
def F32.isFinite (a : F32) : Bool := Nat.blt a.mant (2 ^ 24) && Nat.ble a.bexp 253

/-- Magnitude strictly between `0` and the smallest normal number `2^-126`. -/
def F32.isSubnormal (a : F32) : Bool := !Nat.beq a.mant 0 && Nat.blt a.mant (2 ^ 23)

/-- Conversion of a non-negative integer to `float`. -/
def F32.ofNat (n : Nat) : F32 := F32.round false n 149 1 0

/-- Positive decimal floating constant `num / den` with suffix `f`. -/
def F32.lit (num den : Nat) : F32 := F32.round false num 149 den 0

/-- Product `a * b`. -/
def F32.mul (a b : F32) : F32 :=
  F32.round (xor a.neg b.neg) (a.mant * b.mant) (a.bexp + b.bexp) 1 149

/-- Quotient `a / b` for `b` different from zero (the program only divides by
nonzero constants). -/
def F32.div (a b : F32) : F32 :=
  F32.round (xor a.neg b.neg) a.mant (a.bexp + 149) b.mant b.bexp

/-- Sum `a + b`: the significands are aligned to the smaller exponent and
added with their signs. -/
def F32.add (a b : F32) : F32 :=
  let e := min a.bexp b.bexp
  let x := a.mant * 2 ^ (a.bexp - e)
  let y := b.mant * 2 ^ (b.bexp - e)
  bif a.neg == b.neg then F32.round a.neg (x + y) e 1 0
  else bif Nat.ble y x then F32.round a.neg (x - y) e 1 0
  else F32.round b.neg (y - x) e 1 0

/-- Difference `a - b`. -/
def F32.sub (a b : F32) : F32 := F32.add a ⟨!b.neg, b.mant, b.bexp⟩

/-- Comparison `a > n.0` of a `float` with a non-negative integer-valued
`double` constant: the promotion to `double` is exact, so this is the
comparison of the exact values. -/
def F32.gtConst (a : F32) (n : Nat) : Bool :=
  !a.neg && Nat.blt (n * 2 ^ 149) (a.mant * 2 ^ a.bexp)

/-! ## Formatted output -/

/-- Argument of a `printf`-style call: a string for `%s`, a `float` (promoted
to `double`, exactly) for `%f`. -/
inductive Arg where
  | str (s : CString)
  | dbl (x : F32)

/-- Decimal digits of `n`, padded on the left with zeros to `width`. -/
def zeroPad (width n : Nat) : List Char :=
  let ds := Nat.toDigits 10 n
  List.replicate (width - ds.length) '0' ++ ds

/-- Conversion `%.<prec>f`: the value rounded to `prec` decimals (to nearest,
ties to even), as sign, integer part, point and `prec` digits. -/
def fmt_fixed (prec : Nat) (x : F32) : CString :=
  let n := roundHalfEven (x.mant * 2 ^ x.bexp * 10 ^ prec) (2 ^ 149)
  (if x.neg then ['-'] else []) ++ Nat.toDigits 10 (n / 10 ^ prec) ++
    (if prec = 0 then [] else '.' :: zeroPad prec (n % 10 ^ prec))

/-- The output of a format string with the conversions `%s` and `%.<digit>f`;
every other character is copied. -/
def format : List Char → List Arg → CString
  | [], _ => []
  | '%' :: 's' :: fmt, Arg.str s :: args => s ++ format fmt args
  | '%' :: '.' :: p :: 'f' :: fmt, Arg.dbl x :: args =>
    fmt_fixed (p.toNat - 48) x ++ format fmt args
  | c :: fmt, args => c :: format fmt args

/-- The call `snprintf(buf, size, fmt, ...)` for `size > 0`: at most `size - 1` bytes
of the output are stored, followed by the terminating NUL. -/
def snprintf (size : Nat) (fmt : CString) (args : List Arg) : CString :=
  (format fmt args).take (size - 1)

/-- The call `strcat(dst, src)` into a buffer of `cap` bytes: `none` when the result
and its terminating NUL do not fit (a write past the end of the buffer). -/
def strcat (cap : Nat) (dst src : CString) : Option CString :=
  if dst.length + src.length + 1 ≤ cap then some (dst ++ src) else none

/-! ## Environment -/

/-- IPv4 address. -/
abbrev Ip := Nat

/-- Content of the display after `ssd1306_show`: one string drawn at `(x, y)`
on a cleared frame. -/
structure Frame where
  x : Int
  y : Int
  text : CString
  deriving DecidableEq, Repr

/-- Calls into the SDK, the display driver and lwIP. -/
inductive Effect where
  | sleep_ms (ms : Nat)
  | adc_select_input (channel : Nat)
  | adc_read (raw : Nat)
  | gpio_put (pin : Nat) (value : Bool)
  | ssd1306_clear
  | ssd1306_draw_string (x y : Int) (scale : Nat) (msg : CString)
  | ssd1306_show
  | wifi_connect_blocking (result : Int)
  | dns_gethostbyname (host : CString)
  | tcp_new (pcb : Nat)
  | tcp_connect (pcb : Nat) (ip : Ip) (port : Nat)
  | tcp_write (pcb : Nat) (data : CString)
  | tcp_output (pcb : Nat)
  | tcp_recv (pcb : Nat)
  | tcp_close (pcb : Nat)
  | pbuf_free
  deriving DecidableEq, Repr

/-- State of a TCP protocol control block inside lwIP. -/
inductive PcbState where
  | fresh
  | connecting
  | established
  | closed
  | failed
  deriving DecidableEq, Repr

/-- One lwIP protocol control block: its state and whether a receive callback
has been registered with `tcp_recv`. -/
structure Pcb where
  state : PcbState
  recv_set : Bool
  deriving DecidableEq, Repr

/-- The globals of `main.c` and the observable state of the environment. -/
structure World where
  /-- every call made so far, oldest first -/
  log : List Effect
  /-- output level of every GPIO pin -/
  gpio : Nat → Bool
  /-- what the OLED shows -/
  disp : Option Frame
  /-- `volatile bool timer_fired` -/
  timer_fired : Bool
  /-- `struct tcp_pcb *tcp_client_pcb`, `none` for the null pointer -/
  tcp_client_pcb : Option Nat
  /-- the control blocks lwIP has handed out; a handle is an index here -/
  pcbs : List Pcb
  /-- host name lookups issued whose callback has not run yet -/
  dns_pending : Nat

/-- State at the start of `main`: zero-initialised globals, nothing shown. -/
def World.init : World :=
  { log := [], gpio := fun _ => false, disp := none, timer_fired := false,
    tcp_client_pcb := none, pcbs := [], dns_pending := 0 }

def World.emit (w : World) (e : Effect) : World := { w with log := w.log ++ [e] }

/-! ## Display -/

/-- Function `calculate_position`: top-left corner that centres `msg`, clamped at 0. -/
def calculate_position (msg : CString) (display_width display_height font_width font_height : Int) :
    Int × Int :=
  let msg_length : Int := wrap32 (msg.length : Int)
  let text_width : Int := wrap32 (msg_length * font_width)
  let text_height : Int := font_height
  let x : Int := Int.tdiv (wrap32 (display_width - text_width)) 2
  let y : Int := Int.tdiv (wrap32 (display_height - text_height)) 2
  let x := if x < 0 then 0 else x
  let y := if y < 0 then 0 else y
  (x, y)

/-- Function `display_message`: clear, draw the centred string at scale 1, show. -/
def display_message (w : World) (msg : CString) : World :=
  let w := w.emit Effect.ssd1306_clear
  let p := calculate_position msg 128 64 6 8
  let w := w.emit (Effect.ssd1306_draw_string p.1 p.2 1 msg)
  let w := w.emit Effect.ssd1306_show
  { w with disp := some ⟨p.1, p.2, msg⟩ }

/-! ## Sensor -/

/-- The voltage computed by `read_temperature` from the sample `raw`:
`raw * 3.3f / (1 << 12)`. -/
def voltage_of_raw (raw : Nat) : F32 :=
  F32.div (F32.mul (F32.ofNat raw) (F32.lit 33 10)) (F32.ofNat 4096)

/-- The value `read_temperature` returns for the sample `raw`. -/
def temperature_of_raw (raw : Nat) : F32 :=
  let voltage := voltage_of_raw raw
  let temperature :=
    F32.sub (F32.ofNat 27) (F32.div (F32.sub voltage (F32.lit 706 1000)) (F32.lit 1721 1000000))
  let temperature := F32.mul (F32.lit 527 1000) (F32.sub temperature (F32.ofNat 32))
  temperature

/-- Function `read_temperature`: select ADC channel 4, take the sample `raw` the
converter delivers, convert it. -/
def read_temperature (w : World) (raw : Nat) : World × F32 :=
  let w := w.emit (Effect.adc_select_input 4)
  let w := w.emit (Effect.adc_read raw)
  (w, temperature_of_raw raw)

/-! ## LEDs -/

def gpio_put (w : World) (pin : Nat) (value : Bool) : World :=
  { w.emit (Effect.gpio_put pin value) with
    gpio := fun p => if p = pin then value else w.gpio p }

/-- Function `update_leds`: one of three colours by two thresholds. -/
def update_leds (w : World) (temperature : F32) : World :=
  if F32.gtConst temperature 30 then
    let w := gpio_put w LED_R_PIN true
    let w := gpio_put w LED_G_PIN false
    gpio_put w LED_B_PIN false
  else if F32.gtConst temperature 20 then
    let w := gpio_put w LED_R_PIN false
    let w := gpio_put w LED_G_PIN true
    gpio_put w LED_B_PIN false
  else
    let w := gpio_put w LED_R_PIN false
    let w := gpio_put w LED_G_PIN false
    gpio_put w LED_B_PIN true

/-! ## Wi-Fi -/

/-- The `for` loop of `connect_to_wifi`: `strcat(loading_msg, "*")`, once for
each of the `loading_step` rounds. -/
def append_stars : Nat → CString → Option CString
  | 0, loading_msg => some loading_msg
  | i + 1, loading_msg =>
    match strcat 32 loading_msg "*".toList with
    | none => none
    | some m => append_stars i m

/-- The `while (retries > 0)` loop of `connect_to_wifi` and the failure
message after it.  `join k` is what the `k`-th call (from 0) of
`cyw43_arch_wifi_connect_blocking` returns, `attempt` counts the calls made.
The result is `none` if `loading_msg` overflows. -/
def connect_loop (join : Nat → Int) : Nat → Nat → Nat → World → Option World
  | 0, _, _, w => some (display_message w "Falha ao conectar ao Wi-Fi".toList)
  | retries + 1, loading_step, attempt, w =>
    match append_stars loading_step (snprintf 32 "Conectando ao Wi-Fi".toList []) with
    | none => none
    | some loading_msg =>
      let w := display_message w loading_msg
      let w := w.emit (Effect.wifi_connect_blocking (join attempt))
      if join attempt = 0 then
        some (display_message w "Wi-Fi conectado!".toList)
      else
        connect_loop join retries ((loading_step + 1) % 4) (attempt + 1)
          (w.emit (Effect.sleep_ms 500))

/-- Function `connect_to_wifi`: `retries = 5`, `loading_step = 0`. -/
def connect_to_wifi (join : Nat → Int) (w : World) : Option World :=
  connect_loop join 5 0 0 w

/-! ## lwIP -/

def ERR_OK : Int := 0

/-- Apply `f` to the control block with handle `i`. -/
def update_pcb : List Pcb → Nat → (Pcb → Pcb) → List Pcb
  | [], _, _ => []
  | p :: ps, 0, f => f p :: ps
  | p :: ps, i + 1, f => p :: update_pcb ps i f

/-- The call `tcp_new`: a fresh control block; its handle is returned. -/
def tcp_new (w : World) : World × Nat :=
  let pcb := w.pcbs.length
  ({ w.emit (Effect.tcp_new pcb) with pcbs := w.pcbs ++ [⟨PcbState.fresh, false⟩] }, pcb)

/-- The call `tcp_connect`: the connection attempt starts, the callback comes later. -/
def tcp_connect (w : World) (pcb : Nat) (ip : Ip) (port : Nat) : World :=
  { w.emit (Effect.tcp_connect pcb ip port) with
    pcbs := update_pcb w.pcbs pcb (fun p => { p with state := PcbState.connecting }) }

def tcp_write (w : World) (pcb : Nat) (data : CString) : World :=
  w.emit (Effect.tcp_write pcb data)

def tcp_output (w : World) (pcb : Nat) : World := w.emit (Effect.tcp_output pcb)

/-- The call `tcp_recv`: register the receive callback. -/
def tcp_recv (w : World) (pcb : Nat) : World :=
  { w.emit (Effect.tcp_recv pcb) with
    pcbs := update_pcb w.pcbs pcb (fun p => { p with recv_set := true }) }

/-- The call `tcp_close`: the control block is closed. -/
def tcp_close (w : World) (pcb : Nat) : World :=
  { w.emit (Effect.tcp_close pcb) with
    pcbs := update_pcb w.pcbs pcb (fun p => { p with state := PcbState.closed }) }

def pbuf_free (w : World) : World := w.emit Effect.pbuf_free

/-- The call `dns_gethostbyname` with a callback: the lookup is queued and the call
returns. -/
def dns_gethostbyname (w : World) (host : CString) : World :=
  { w.emit (Effect.dns_gethostbyname host) with dns_pending := w.dns_pending + 1 }

/-! ## Uploader -/

/-- Function `http_recv_callback`; `p = none` is the null buffer of a remote close. -/
def http_recv_callback (w : World) (tpcb : Nat) (p : Option CString) : World × Int :=
  match p with
  | none => (tcp_close w tpcb, ERR_OK)
  | some _ =>
    let w := display_message w "Dados enviados!".toList
    let w := pbuf_free w
    (w, ERR_OK)

/-- The request `http_connected_callback` builds in `char request[256]`, with
the macros `API_KEY` and `THINGSPEAK_HOST` as parameters. -/
def http_request (api_key host : CString) (temperature : F32) : CString :=
  snprintf 256
    "GET /update?api_key=%s&field1=%.2f HTTP/1.1\r\nHost: %s\r\nConnection: close\r\n\r\n".toList
    [Arg.str api_key, Arg.dbl temperature, Arg.str host]

/-- Function `http_connected_callback`; `raw` is the sample the ADC delivers. -/
def http_connected_callback (w : World) (tpcb : Nat) (err : Int) (raw : Nat) : World × Int :=
  if err ≠ ERR_OK then
    (display_message w "Erro na conex\xc3\xa3o TCP".toList, err)
  else
    let (w, temperature) := read_temperature w raw
    let request := http_request API_KEY THINGSPEAK_HOST temperature
    let w := tcp_write w tpcb request
    let w := tcp_output w tpcb
    let w := tcp_recv w tpcb
    (w, ERR_OK)

/-- Function `dns_callback`; `ipaddr = none` is the null pointer of a failed lookup. -/
def dns_callback (w : World) (ipaddr : Option Ip) : World :=
  match ipaddr with
  | some ip =>
    let w := display_message w "DNS resolvido".toList
    let (w, pcb) := tcp_new w
    let w := { w with tcp_client_pcb := some pcb }
    tcp_connect w pcb ip THINGSPEAK_PORT
  | none => display_message w "DNS n\xc3\xa3o resolvido".toList

/-! ## Event loop -/

/-- Function `repeating_timer_callback`: it sets the flag. -/
def repeating_timer_callback (w : World) : World := { w with timer_fired := true }

/-- Body of `if (gpio_get(BUTTON_PIN) == 0)` in `main`. -/
def button_branch (w : World) (raw : Nat) : World :=
  let w := w.emit (Effect.sleep_ms 200)
  let (w, temperature) := read_temperature w raw
  let temp_str := snprintf 32 "Temp: %.2f C".toList [Arg.dbl temperature]
  let w := display_message w temp_str
  dns_gethostbyname w THINGSPEAK_HOST

/-- Body of `if (timer_fired)` in `main`. -/
def timer_branch (w : World) (raw : Nat) : World :=
  let w := { w with timer_fired := false }
  let (w, temperature) := read_temperature w raw
  let w := update_leds w temperature
  let temp_str := snprintf 32 "Temp: %.2f C".toList [Arg.dbl temperature]
  let w := display_message w temp_str
  dns_gethostbyname w THINGSPEAK_HOST

/-- One round of `while (true)` in `main`.  `pressed` says that
`gpio_get(BUTTON_PIN)` returns 0; `raw_button` and `raw_timer` are the samples
the ADC delivers to the two branches. -/
def loop_iteration (w : World) (pressed : Bool) (raw_button raw_timer : Nat) : World :=
  let w := if pressed then button_branch w raw_button else w
  if w.timer_fired then timer_branch w raw_timer else w

/-- What the environment can do next. -/
inductive Event where
  /-- the repeating timer fires -/
  | timer_irq
  /-- `main` runs one round of its loop -/
  | loop (pressed : Bool) (raw_button raw_timer : Nat)
  /-- lwIP finishes a pending lookup -/
  | dns_found (ipaddr : Option Ip)
  /-- lwIP finishes the connection attempt of `pcb`, with `err` -/
  | connected (pcb : Nat) (err : Int) (raw : Nat)
  /-- lwIP delivers data, or the remote close, on `pcb` -/
  | recv (pcb : Nat) (p : Option CString)

/-- One event.  lwIP runs a callback only for an operation that is pending: a
lookup that was queued, a control block that is connecting, an established
connection with a receive callback; any other event leaves the state as it is.
A connection attempt that ends with an error leaves the control block failed. -/
def step (w : World) : Event → World
  | Event.timer_irq => repeating_timer_callback w
  | Event.loop pressed raw_button raw_timer => loop_iteration w pressed raw_button raw_timer
  | Event.dns_found ipaddr =>
    if w.dns_pending = 0 then w
    else dns_callback { w with dns_pending := w.dns_pending - 1 } ipaddr
  | Event.connected pcb err raw =>
    match w.pcbs[pcb]? with
    | some ⟨PcbState.connecting, _⟩ =>
      let st := if err = ERR_OK then PcbState.established else PcbState.failed
      let w := { w with pcbs := update_pcb w.pcbs pcb (fun p => { p with state := st }) }
      (http_connected_callback w pcb err raw).1
    | _ => w
  | Event.recv pcb p =>
    match w.pcbs[pcb]? with
    | some ⟨PcbState.established, true⟩ => (http_recv_callback w pcb p).1
    | _ => w

/-- The state after a sequence of events. -/
def run (w : World) (evs : List Event) : World := evs.foldl step w

/-! ## Notions of the specification -/

/-- The text on the display. -/
def World.shown (w : World) : Option CString := w.disp.map Frame.text

/-- Levels of the red, green and blue LED pins. -/
def leds (w : World) : Bool × Bool × Bool :=
  (w.gpio LED_R_PIN, w.gpio LED_G_PIN, w.gpio LED_B_PIN)

/-- What `update_leds` writes to the red, green and blue pins. -/
def led_colour (t : F32) : Bool × Bool × Bool :=
  if F32.gtConst t 30 then (true, false, false)
  else if F32.gtConst t 20 then (false, true, false)
  else (false, false, true)

/-- A connection that has been created and has neither been closed nor
failed. -/
def Pcb.isOpen (p : Pcb) : Bool :=
  match p.state with
  | PcbState.fresh | PcbState.connecting | PcbState.established => true
  | PcbState.closed | PcbState.failed => false

/-- Number of outstanding TCP connections. -/
def outstanding (w : World) : Nat := w.pcbs.countP Pcb.isOpen

/-- Uploads in flight: lookups pending and connections outstanding. -/
def in_flight (w : World) : Nat := w.dns_pending + outstanding w

/-- Number of uploads the event `e` starts in state `w`. -/
def starts (w : World) : Event → Nat
  | Event.loop pressed _ _ => (if pressed then 1 else 0) + (if w.timer_fired then 1 else 0)
  | _ => 0

/-- No event of the sequence starts an upload while another one is in flight,
and none starts two at once. -/
def serialized : World → List Event → Bool
  | _, [] => true
  | w, e :: es =>
    (starts w e == 0 || (starts w e == 1 && in_flight w == 0)) && serialized (step w e) es

/-- Number of calls of the blocking Wi-Fi join in a log. -/
def join_calls (log : List Effect) : Nat :=
  log.countP (fun e => match e with | Effect.wifi_connect_blocking _ => true | _ => false)

/-- The strings drawn on the display, in order. -/
def drawn : List Effect → List CString
  | [] => []
  | Effect.ssd1306_draw_string _ _ _ msg :: es => msg :: drawn es
  | _ :: es => drawn es

/-- The calls that concern a connection object. -/
def Effect.isTcp : Effect → Bool
  | Effect.tcp_new _ | Effect.tcp_connect _ _ _ | Effect.tcp_write _ _ | Effect.tcp_output _
  | Effect.tcp_recv _ | Effect.tcp_close _ => true
  | _ => false

/-- The request as the specification words it: the fixed template around the
key, the reading with two decimals, and the host. -/
def request_text (k h : CString) (t : F32) : CString :=
  "GET /update?api_key=".toList ++ k ++ "&field1=".toList ++ fmt_fixed 2 t ++
    " HTTP/1.1\r\nHost: ".toList ++ h ++ "\r\nConnection: close\r\n\r\n".toList

/-- The documented formula in exact arithmetic: `V = raw * 3.3 / 4096`,
`T = 27 - (V - 0.706) / 0.001721`, then `0.527 * (T - 32)`. -/
def celsius_spec (raw : Nat) : ℚ :=
  0.527 * ((27 - ((raw : ℚ) * 3.3 / 4096 - 0.706) / 0.001721) - 32)

/-- Every result of a floating-point operation in `read_temperature`, in the
order of evaluation; the last one is the value returned. -/
def sensor_results (raw : Nat) : List F32 :=
  let raw_f := F32.ofNat raw
  let prod := F32.mul raw_f (F32.lit 33 10)
  let voltage := F32.div prod (F32.ofNat 4096)
  let diff := F32.sub voltage (F32.lit 706 1000)
  let quot := F32.div diff (F32.lit 1721 1000000)
  let temperature := F32.sub (F32.ofNat 27) quot
  let shifted := F32.sub temperature (F32.ofNat 32)
  [raw_f, prod, voltage, diff, quot, temperature, shifted, F32.mul (F32.lit 527 1000) shifted]

/-- Test of a value `t` computed for the sample `raw`: it is within `1/5000`
of `(9408695424 - 10869375 * raw) / 44057600`, checked on integers after
multiplying by `44057600 * 2^149`. -/
def close_to_spec (raw : Nat) (t : F32) : Bool :=
  let v : Int := if t.neg then -((t.mant * 2 ^ t.bexp : Nat) : Int) else ((t.mant * 2 ^ t.bexp : Nat) : Int)
  let d : Int := v * 44057600 - (9408695424 - 10869375 * (raw : Int)) * ((2 ^ 149 : Nat) : Int)
  Nat.ble (5000 * d.natAbs) (44057600 * 2 ^ 149)

/-- Test of one sample: every result of `sensor_results` is finite and not
subnormal, and the last one is close to the exact formula. -/
def sensor_check (raw : Nat) : Bool :=
  (sensor_results raw).all (fun x => F32.isFinite x && !F32.isSubnormal x) &&
    (match (sensor_results raw).getLast? with
      | some t => close_to_spec raw t
      | none => false)

/-- The test `p` holds on the `2^d` numbers from `lo` on. -/
def all_from (p : Nat → Bool) : Nat → Nat → Bool
  | 0, lo => p lo
  | d + 1, lo => all_from p d lo && all_from p d (lo + 2 ^ d)

/-! ## Display position -/

theorem wrap32_of_range (v : Int) (h1 : -2147483648 ≤ v) (h2 : v ≤ 2147483647) : wrap32 v = v := by
  unfold wrap32; omega

theorem tdiv_two_nonpos (a : Int) (h : a < 0) : Int.tdiv a 2 ≤ 0 := by
  have h1 : a = -(-a) := by omega
  rw [h1, Int.neg_tdiv]
  have := @Int.tdiv_nonneg (-a) 2 (by omega) (by omega)
  omega

/-- The clamp of `calculate_position`: `if v < 0 then 0 else v` on a truncated
half is `max 0` of it. -/
theorem clamp_eq_max (v : Int) : (if v < 0 then 0 else v) = max 0 v := by
  split <;> omega

/-- General form of the result of `calculate_position` for in-range arguments,
without an order between display and glyph sizes. -/
theorem calculate_position_eq (msg : CString) (W H fw fh : Int)
    (hW0 : 0 ≤ W) (hW : W ≤ INT_MAX) (hH0 : 0 ≤ H) (hH : H ≤ INT_MAX)
    (hfw : 0 ≤ fw) (hfh0 : 0 ≤ fh) (hfh : fh ≤ INT_MAX)
    (hrange : (msg.length : Int) * fw ≤ INT_MAX) :
    calculate_position msg W H fw fh =
      (max 0 (Int.tdiv (W - (msg.length : Int) * fw) 2), max 0 (Int.tdiv (H - fh) 2)) := by
  unfold INT_MAX at *
  have hn : (0 : Int) ≤ (msg.length : Int) := Int.ofNat_nonneg _
  have hprod : 0 ≤ (msg.length : Int) * fw := Int.mul_nonneg hn hfw
  have hlen : wrap32 (msg.length : Int) * fw = (msg.length : Int) * fw := by
    rcases lt_or_le (msg.length : Int) 2147483648 with h | h
    · rw [wrap32_of_range _ (by omega) (by omega)]
    · have hfw0 : fw = 0 := by
        by_contra hne
        have h1 : 1 ≤ fw := by omega
        have : (msg.length : Int) * 1 ≤ (msg.length : Int) * fw := Int.mul_le_mul_of_nonneg_left h1 hn
        omega
      simp [hfw0]
  unfold calculate_position
  simp only [hlen, clamp_eq_max]
  rw [wrap32_of_range ((msg.length : Int) * fw) (by omega) (by omega),
    wrap32_of_range (W - (msg.length : Int) * fw) (by omega) (by omega),
    wrap32_of_range (H - fh) (by omega) (by omega)]

/-- A text taller than the display gets `y = 0`. -/
theorem calculate_position_taller (msg : CString) (W H fw fh : Int)
    (hW0 : 0 ≤ W) (hW : W ≤ INT_MAX) (hH0 : 0 ≤ H) (hH : H ≤ INT_MAX)
    (hfw : 0 ≤ fw) (hfh0 : 0 ≤ fh) (hfh : fh ≤ INT_MAX)
    (hrange : (msg.length : Int) * fw ≤ INT_MAX) (htall : H < fh) :
    (calculate_position msg W H fw fh).2 = 0 := by
  rw [calculate_position_eq msg W H fw fh hW0 hW hH0 hH hfw hfh0 hfh hrange]
  have := tdiv_two_nonpos (H - fh) (by omega)
  simp only
  omega

/-- C3: for a message of `n` bytes, a display `W x H` and glyphs `fw x fh` with
`W >= fw >= 0`, `H >= fh >= 0` (all of them `int` values, `n * fw` in range),
`calculate_position` returns `x = max 0 ((W - n * fw) / 2)` and
`y = max 0 ((H - fh) / 2)` with truncating division; no coordinate is negative,
`x` is 0 when the text is wider than the display and when it is exactly as
wide. -/
theorem calculate_position_spec (msg : CString) (W H fw fh : Int)
    (hfw : 0 ≤ fw) (hW : fw ≤ W) (hWmax : W ≤ INT_MAX)
    (hfh : 0 ≤ fh) (hH : fh ≤ H) (hHmax : H ≤ INT_MAX)
    (hrange : (msg.length : Int) * fw ≤ INT_MAX) :
    (calculate_position msg W H fw fh).1 = max 0 (Int.tdiv (W - (msg.length : Int) * fw) 2) ∧
    (calculate_position msg W H fw fh).2 = max 0 (Int.tdiv (H - fh) 2) ∧
    0 ≤ (calculate_position msg W H fw fh).1 ∧
    0 ≤ (calculate_position msg W H fw fh).2 ∧
    (W < (msg.length : Int) * fw → (calculate_position msg W H fw fh).1 = 0) ∧
    ((msg.length : Int) * fw = W → (calculate_position msg W H fw fh).1 = 0) := by
  rw [calculate_position_eq msg W H fw fh (by omega) hWmax (by omega) hHmax hfw hfh
    (by unfold INT_MAX at *; omega) hrange]
  refine ⟨rfl, rfl, ?_, ?_, ?_, ?_⟩
  · simp only; omega
  · simp only; omega
  · intro h
    have := tdiv_two_nonpos (W - (msg.length : Int) * fw) (by omega)
    simp only; omega
  · intro h
    simp [h]

theorem calculate_position_spec_witness :
    (calculate_position "Dados enviados!".toList 128 64 6 8).1 = max 0 (Int.tdiv (128 - (15 : Int) * 6) 2) ∧
    (calculate_position "Dados enviados!".toList 128 64 6 8).2 = max 0 (Int.tdiv (64 - 8) 2) ∧
    0 ≤ (calculate_position "Dados enviados!".toList 128 64 6 8).1 ∧
    0 ≤ (calculate_position "Dados enviados!".toList 128 64 6 8).2 ∧
    ((128 : Int) < (15 : Int) * 6 → (calculate_position "Dados enviados!".toList 128 64 6 8).1 = 0) ∧
    ((15 : Int) * 6 = 128 → (calculate_position "Dados enviados!".toList 128 64 6 8).1 = 0) :=
  calculate_position_spec "Dados enviados!".toList 128 64 6 8 (by decide) (by decide) (by decide)
    (by decide) (by decide) (by decide) (by decide)

/-! ## LEDs -/

/-- The test `F32.gtConst` is the comparison of the exact values. -/
theorem gtConst_iff (a : F32) (n : Nat) : F32.gtConst a n = true ↔ (n : ℚ) < a.toRat := by
  obtain ⟨neg, m, e⟩ := a
  have h2 : (0 : ℚ) < 2 ^ 149 := by positivity
  cases neg
  · have hL : F32.gtConst ⟨false, m, e⟩ n = true ↔ n * 2 ^ 149 < m * 2 ^ e := by
      unfold F32.gtConst
      rw [Bool.not_false, Bool.true_and, Nat.blt_eq]
    have hR : F32.toRat ⟨false, m, e⟩ = ((m : ℚ) * 2 ^ e) / 2 ^ 149 := by
      unfold F32.toRat
      rw [if_neg Bool.false_ne_true, one_mul]
    rw [hL, hR, lt_div_iff₀ h2]
    constructor
    · intro h
      exact_mod_cast h
    · intro h
      exact_mod_cast h
  · have hL : F32.gtConst ⟨true, m, e⟩ n = false := by
      unfold F32.gtConst
      rw [Bool.not_true, Bool.false_and]
    have hR : F32.toRat ⟨true, m, e⟩ = (-1) * ((m : ℚ) * 2 ^ e) / 2 ^ 149 := by
      unfold F32.toRat
      rw [if_pos rfl]
    rw [hL, hR]
    have h3 : (0 : ℚ) ≤ (m : ℚ) * 2 ^ e :=
      mul_nonneg (Nat.cast_nonneg m) (pow_nonneg (by norm_num) e)
    have h4 : (-1 : ℚ) * ((m : ℚ) * 2 ^ e) / 2 ^ 149 ≤ 0 := by
      apply div_nonpos_of_nonpos_of_nonneg _ h2.le
      linarith
    have h5 : (0 : ℚ) ≤ (n : ℚ) := Nat.cast_nonneg n
    constructor
    · intro h; exact absurd h Bool.false_ne_true
    · intro h; linarith

/-- The three LED levels after `update_leds`. -/
theorem leds_update_leds (w : World) (t : F32) :
    leds (update_leds w t) =
      if F32.gtConst t 30 then (true, false, false)
      else if F32.gtConst t 20 then (false, true, false)
      else (false, false, true) := by
  unfold update_leds
  split
  · simp [leds, gpio_put, LED_R_PIN, LED_G_PIN, LED_B_PIN, World.emit]
  · split <;> simp [leds, gpio_put, LED_R_PIN, LED_G_PIN, LED_B_PIN, World.emit]

theorem toRat_ofNat_30 : (F32.ofNat 30).toRat = 30 := by
  have h : F32.ofNat 30 = ⟨false, 15728640, 130⟩ := by decide!
  rw [h]; norm_num [F32.toRat]

theorem toRat_ofNat_20 : (F32.ofNat 20).toRat = 20 := by
  have h : F32.ofNat 20 = ⟨false, 10485760, 130⟩ := by decide!
  rw [h]; norm_num [F32.toRat]

/-- C1: `update_leds` lights exactly one LED: red alone exactly when the
temperature is above 30, green alone exactly when it is above 20 and at most
30, blue alone exactly when it is at most 20; the values 30.0 and 20.0
themselves give green and blue. -/
theorem update_leds_spec (w : World) (t : F32) :
    (leds (update_leds w t) = (true, false, false) ∨ leds (update_leds w t) = (false, true, false) ∨
      leds (update_leds w t) = (false, false, true)) ∧
    (leds (update_leds w t) = (true, false, false) ↔ 30 < t.toRat) ∧
    (leds (update_leds w t) = (false, true, false) ↔ 20 < t.toRat ∧ t.toRat ≤ 30) ∧
    (leds (update_leds w t) = (false, false, true) ↔ t.toRat ≤ 20) ∧
    ((F32.ofNat 30).toRat = 30 ∧ leds (update_leds w (F32.ofNat 30)) = (false, true, false)) ∧
    ((F32.ofNat 20).toRat = 20 ∧ leds (update_leds w (F32.ofNat 20)) = (false, false, true)) := by
  have key : ∀ u : F32,
      (leds (update_leds w u) = (true, false, false) ∨ leds (update_leds w u) = (false, true, false) ∨
        leds (update_leds w u) = (false, false, true)) ∧
      (leds (update_leds w u) = (true, false, false) ↔ 30 < u.toRat) ∧
      (leds (update_leds w u) = (false, true, false) ↔ 20 < u.toRat ∧ u.toRat ≤ 30) ∧
      (leds (update_leds w u) = (false, false, true) ↔ u.toRat ≤ 20) := by
    intro u
    have h30 := gtConst_iff u 30
    have h20 := gtConst_iff u 20
    rw [leds_update_leds]
    by_cases c30 : F32.gtConst u 30 = true
    · have a30 : ((30 : ℕ) : ℚ) < u.toRat := h30.mp c30
      have a30' : (30 : ℚ) < u.toRat := by exact_mod_cast a30
      rw [if_pos c30]
      refine ⟨Or.inl rfl, ?_, ?_, ?_⟩
      · simp [a30']
      · constructor
        · intro h; simp at h
        · intro h; linarith [h.2]
      · constructor
        · intro h; simp at h
        · intro h; linarith
    · have a30 : ¬ ((30 : ℕ) : ℚ) < u.toRat := fun h => c30 (h30.mpr h)
      have a30' : u.toRat ≤ 30 := by
        have := not_lt.mp a30
        exact_mod_cast this
      by_cases c20 : F32.gtConst u 20 = true
      · have a20 : ((20 : ℕ) : ℚ) < u.toRat := h20.mp c20
        have a20' : (20 : ℚ) < u.toRat := by exact_mod_cast a20
        rw [if_neg c30, if_pos c20]
        refine ⟨Or.inr (Or.inl rfl), ?_, ?_, ?_⟩
        · constructor
          · intro h; simp at h
          · intro h; linarith
        · simp [a20', a30']
        · constructor
          · intro h; simp at h
          · intro h; linarith
      · have a20 : ¬ ((20 : ℕ) : ℚ) < u.toRat := fun h => c20 (h20.mpr h)
        have a20' : u.toRat ≤ 20 := by
          have := not_lt.mp a20
          exact_mod_cast this
        rw [if_neg c30, if_neg c20]
        refine ⟨Or.inr (Or.inr rfl), ?_, ?_, ?_⟩
        · constructor
          · intro h; simp at h
          · intro h; linarith
        · constructor
          · intro h; simp at h
          · intro h; linarith [h.1]
        · simp [a20']
  refine ⟨(key t).1, (key t).2.1, (key t).2.2.1, (key t).2.2.2, ⟨toRat_ofNat_30, ?_⟩,
    ⟨toRat_ofNat_20, ?_⟩⟩
  · exact ((key (F32.ofNat 30)).2.2.1).mpr (by rw [toRat_ofNat_30]; norm_num)
  · exact ((key (F32.ofNat 20)).2.2.2).mpr (by rw [toRat_ofNat_20])

/-! ## HTTP request -/

/-- The request is the output of the template cut at the 255 bytes that fit
`request[256]`. -/
theorem http_request_eq_take (k h : CString) (t : F32) :
    http_request k h t = (request_text k h t).take 255 := by
  simp [http_request, snprintf, format, request_text]

/-- C2, as it stands, fails: with a key of 300 bytes the request stored in
`request[256]` is not the full text of the template. -/
theorem http_request_truncated :
    http_request (List.replicate 300 'K') "api.example.com".toList (F32.lit 23456 1000) ≠
      "GET /update?api_key=".toList ++ List.replicate 300 'K' ++ "&field1=".toList ++
        "23.46".toList ++ " HTTP/1.1\r\nHost: ".toList ++ "api.example.com".toList ++
        "\r\nConnection: close\r\n\r\n".toList := by
  decide!

/-- C2 (amended): for every key `k`, host `h` and temperature `t` the request
is the first 255 bytes of `GET /update?api_key=` `k` `&field1=` `t` with two
decimals ` HTTP/1.1\r\nHost: ` `h` `\r\nConnection: close\r\n\r\n`, hence that
whole text when it has at most 255 bytes; for `ABC123`, 23.456 and
`api.example.com` it is the text of the specification. -/
theorem http_request_spec (k h : CString) (t : F32)
    (hlen : (request_text k h t).length ≤ 255) :
    http_request k h t = "GET /update?api_key=".toList ++ k ++ "&field1=".toList ++
      fmt_fixed 2 t ++ " HTTP/1.1\r\nHost: ".toList ++ h ++ "\r\nConnection: close\r\n\r\n".toList ∧
    (∀ k' h' t', http_request k' h' t' = (request_text k' h' t').take 255) ∧
    http_request "ABC123".toList "api.example.com".toList (F32.lit 23456 1000) =
      "GET /update?api_key=ABC123&field1=23.46 HTTP/1.1\r\nHost: api.example.com\r\nConnection: close\r\n\r\n".toList := by
  refine ⟨?_, http_request_eq_take, by decide!⟩
  rw [http_request_eq_take, List.take_of_length_le hlen]
  rfl

theorem http_request_spec_witness :
    http_request API_KEY THINGSPEAK_HOST (temperature_of_raw 876) =
      "GET /update?api_key=".toList ++ API_KEY ++ "&field1=".toList ++
      fmt_fixed 2 (temperature_of_raw 876) ++ " HTTP/1.1\r\nHost: ".toList ++ THINGSPEAK_HOST ++
      "\r\nConnection: close\r\n\r\n".toList ∧
    (∀ k' h' t', http_request k' h' t' = (request_text k' h' t').take 255) ∧
    http_request "ABC123".toList "api.example.com".toList (F32.lit 23456 1000) =
      "GET /update?api_key=ABC123&field1=23.46 HTTP/1.1\r\nHost: api.example.com\r\nConnection: close\r\n\r\n".toList :=
  http_request_spec API_KEY THINGSPEAK_HOST (temperature_of_raw 876) (by decide!)

/-! ## Uploader -/

set_option maxRecDepth 100000

theorem log_emit (w : World) (e : Effect) : (w.emit e).log = w.log ++ [e] := rfl

/-- The calls `display_message` makes. -/
theorem log_display_message (w : World) (msg : CString) :
    (display_message w msg).log = w.log ++ [Effect.ssd1306_clear,
      Effect.ssd1306_draw_string (calculate_position msg 128 64 6 8).1
        (calculate_position msg 128 64 6 8).2 1 msg, Effect.ssd1306_show] := by
  simp [display_message, World.emit]

theorem shown_display_message (w : World) (msg : CString) :
    (display_message w msg).shown = some msg := rfl

/-- Function `update_leds` as one update of the state: three `gpio_put` calls with the
levels of `led_colour`; nothing else changes. -/
theorem update_leds_eq (w : World) (t : F32) :
    update_leds w t =
      { w with
        log := w.log ++ [Effect.gpio_put LED_R_PIN (led_colour t).1,
          Effect.gpio_put LED_G_PIN (led_colour t).2.1, Effect.gpio_put LED_B_PIN (led_colour t).2.2]
        gpio := fun p =>
          if p = LED_B_PIN then (led_colour t).2.2
          else if p = LED_G_PIN then (led_colour t).2.1
          else if p = LED_R_PIN then (led_colour t).1
          else w.gpio p } := by
  unfold update_leds led_colour
  split
  · simp [gpio_put, World.emit]
  · split <;> simp [gpio_put, World.emit]

/-- C8: after a failed lookup (`dns_callback` with the null address) the
display shows `DNS não resolvido`; the only calls made are the three display
calls, so no connection object is created (`tcp_new`, `tcp_connect`), the
handle `tcp_client_pcb` is unchanged and no new lookup is queued.  The pending
lookup is consumed: after a trigger and this one callback nothing is in
flight. -/
theorem dns_failure_spec (w : World) (rb rt : Nat) :
    (dns_callback w none).shown = some "DNS n\xc3\xa3o resolvido".toList ∧
    (dns_callback w none).log = w.log ++ [Effect.ssd1306_clear,
      Effect.ssd1306_draw_string 10 28 1 "DNS n\xc3\xa3o resolvido".toList, Effect.ssd1306_show] ∧
    (dns_callback w none).pcbs = w.pcbs ∧
    (dns_callback w none).tcp_client_pcb = w.tcp_client_pcb ∧
    (dns_callback w none).dns_pending = w.dns_pending ∧
    (step w (Event.dns_found none)).dns_pending = w.dns_pending - 1 ∧
    outstanding (step w (Event.dns_found none)) = outstanding w ∧
    in_flight (run World.init [Event.timer_irq, Event.loop false rb rt]) = 1 ∧
    in_flight (run World.init [Event.timer_irq, Event.loop false rb rt, Event.dns_found none]) = 0 ∧
    (run World.init [Event.timer_irq, Event.loop false rb rt, Event.dns_found none]).shown =
      some "DNS n\xc3\xa3o resolvido".toList ∧
    in_flight (run World.init [Event.loop true rb rt]) = 1 ∧
    in_flight (run World.init [Event.loop true rb rt, Event.dns_found none]) = 0 ∧
    (run World.init [Event.loop true rb rt, Event.dns_found none]).shown =
      some "DNS n\xc3\xa3o resolvido".toList := by
  refine ⟨rfl, ?_, rfl, rfl, rfl, ?_, ?_, ?_, ?_, ?_, ?_, ?_, ?_⟩
  · show (display_message w _).log = _
    rw [log_display_message]
    rfl
  · by_cases h : w.dns_pending = 0
    · simp [step, h]
    · simp only [step, if_neg h]
      rfl
  · by_cases h : w.dns_pending = 0
    · simp [step, h]
    · simp only [step, if_neg h]
      rfl
  all_goals
    simp [run, step, loop_iteration, repeating_timer_callback, timer_branch, button_branch,
      read_temperature, update_leds_eq, display_message, dns_gethostbyname, dns_callback,
      World.emit, World.init, World.shown, in_flight, outstanding]

/-- C5, as it stands, fails: after the lookup, the connect callback and one
byte of response the message `Dados enviados!` is shown, but the connection is
still established and `tcp_close` has not been called. -/
theorem upload_open_after_response :
    (run World.init [Event.timer_irq, Event.loop false 0 876, Event.dns_found (some 3232235777),
        Event.connected 0 ERR_OK 876, Event.recv 0 (some ['H'])]).shown =
      some "Dados enviados!".toList ∧
    ¬ ((run World.init [Event.timer_irq, Event.loop false 0 876, Event.dns_found (some 3232235777),
        Event.connected 0 ERR_OK 876, Event.recv 0 (some ['H'])]).pcbs =
          [⟨PcbState.closed, true⟩] ∨
      Effect.tcp_close 0 ∈ (run World.init [Event.timer_irq, Event.loop false 0 876,
        Event.dns_found (some 3232235777), Event.connected 0 ERR_OK 876,
        Event.recv 0 (some ['H'])]).log) := by
  decide!

/-- C5 (amended): from the initial state, a trigger, the successful lookup,
the connect callback without error and one receive callback with a response
buffer end with `Dados enviados!` on the display and the connection still
established: the calls made on it are `tcp_new`, `tcp_connect`, `tcp_write`,
`tcp_output` and `tcp_recv`.  The next receive callback with the null buffer
(remote close) calls `tcp_close` on it and leaves it closed, with the message
still shown. -/
theorem upload_scenario_spec (ip : Ip) (rb rt raw : Nat) (payload : CString) :
    (run World.init [Event.timer_irq, Event.loop false rb rt, Event.dns_found (some ip),
        Event.connected 0 ERR_OK raw, Event.recv 0 (some payload)]).shown =
      some "Dados enviados!".toList ∧
    (run World.init [Event.timer_irq, Event.loop false rb rt, Event.dns_found (some ip),
        Event.connected 0 ERR_OK raw, Event.recv 0 (some payload)]).pcbs =
      [⟨PcbState.established, true⟩] ∧
    (run World.init [Event.timer_irq, Event.loop false rb rt, Event.dns_found (some ip),
        Event.connected 0 ERR_OK raw, Event.recv 0 (some payload)]).log.filter Effect.isTcp =
      [Effect.tcp_new 0, Effect.tcp_connect 0 ip THINGSPEAK_PORT,
        Effect.tcp_write 0 (http_request API_KEY THINGSPEAK_HOST (temperature_of_raw raw)),
        Effect.tcp_output 0, Effect.tcp_recv 0] ∧
    (run World.init [Event.timer_irq, Event.loop false rb rt, Event.dns_found (some ip),
        Event.connected 0 ERR_OK raw, Event.recv 0 (some payload), Event.recv 0 none]).shown =
      some "Dados enviados!".toList ∧
    (run World.init [Event.timer_irq, Event.loop false rb rt, Event.dns_found (some ip),
        Event.connected 0 ERR_OK raw, Event.recv 0 (some payload), Event.recv 0 none]).pcbs =
      [⟨PcbState.closed, true⟩] ∧
    (run World.init [Event.timer_irq, Event.loop false rb rt, Event.dns_found (some ip),
        Event.connected 0 ERR_OK raw, Event.recv 0 (some payload), Event.recv 0 none]).log.filter
        Effect.isTcp =
      [Effect.tcp_new 0, Effect.tcp_connect 0 ip THINGSPEAK_PORT,
        Effect.tcp_write 0 (http_request API_KEY THINGSPEAK_HOST (temperature_of_raw raw)),
        Effect.tcp_output 0, Effect.tcp_recv 0, Effect.tcp_close 0] ∧
    in_flight (run World.init [Event.timer_irq, Event.loop false rb rt, Event.dns_found (some ip),
        Event.connected 0 ERR_OK raw, Event.recv 0 (some payload), Event.recv 0 none]) = 0 := by
  refine ⟨?_, ?_, ?_, ?_, ?_, ?_, ?_⟩ <;>
  simp [run, step, loop_iteration, repeating_timer_callback, timer_branch, read_temperature,
    update_leds_eq, display_message, dns_gethostbyname, dns_callback, tcp_new, tcp_connect,
    update_pcb, http_connected_callback, tcp_write, tcp_output, tcp_recv, http_recv_callback,
    pbuf_free, tcp_close, World.emit, World.init, World.shown, ERR_OK, Effect.isTcp, in_flight,
    outstanding, Pcb.isOpen]

/-! ## Event loop -/

/-- C7 at the sample 700 (a reading of 40.86): the timer branch sets the LEDs
to red, the button branch makes no `gpio_put` call and leaves the LEDs as they
were; the other calls are the same. -/
theorem button_branch_omits_leds :
    (timer_branch World.init 700).log =
      [Effect.adc_select_input 4, Effect.adc_read 700,
        Effect.gpio_put 13 true, Effect.gpio_put 12 false, Effect.gpio_put 11 false,
        Effect.ssd1306_clear, Effect.ssd1306_draw_string 25 28 1 "Temp: 40.86 C".toList,
        Effect.ssd1306_show, Effect.dns_gethostbyname "api.thingspeak.com".toList] ∧
    (button_branch World.init 700).log =
      [Effect.sleep_ms 200, Effect.adc_select_input 4, Effect.adc_read 700,
        Effect.ssd1306_clear, Effect.ssd1306_draw_string 25 28 1 "Temp: 40.86 C".toList,
        Effect.ssd1306_show, Effect.dns_gethostbyname "api.thingspeak.com".toList] ∧
    leds (timer_branch World.init 700) = (true, false, false) ∧
    leds (button_branch World.init 700) = (false, false, false) := by
  decide!

/-! ## Wi-Fi -/

theorem drawn_append (a b : List Effect) : drawn (a ++ b) = drawn a ++ drawn b := by
  induction a with
  | nil => rfl
  | cons e es ih => cases e <;> simp [drawn, ih]

theorem join_calls_append (a b : List Effect) :
    join_calls (a ++ b) = join_calls a + join_calls b := by
  simp [join_calls, List.countP_append]

/-- The loading message of a step below 4: the text and `loading_step`
asterisks. -/
theorem append_stars_eq (ls : Nat) (h : ls < 4) :
    append_stars ls (snprintf 32 "Conectando ao Wi-Fi".toList []) =
      some ("Conectando ao Wi-Fi".toList ++ List.replicate ls '*') := by
  interval_cases ls <;> decide

/-- One round of the retry loop that succeeds. -/
theorem connect_loop_success (join : Nat → Int) (r ls k : Nat) (w : World) (h : ls < 4)
    (hj : join k = 0) :
    connect_loop join (r + 1) ls k w =
      some (display_message
        ((display_message w ("Conectando ao Wi-Fi".toList ++ List.replicate ls '*')).emit
          (Effect.wifi_connect_blocking (join k))) "Wi-Fi conectado!".toList) := by
  rw [connect_loop, append_stars_eq ls h]
  simp only [hj, if_true]

/-- One round of the retry loop that fails. -/
theorem connect_loop_failure (join : Nat → Int) (r ls k : Nat) (w : World) (h : ls < 4)
    (hj : join k ≠ 0) :
    connect_loop join (r + 1) ls k w =
      connect_loop join r ((ls + 1) % 4) (k + 1)
        (((display_message w ("Conectando ao Wi-Fi".toList ++ List.replicate ls '*')).emit
          (Effect.wifi_connect_blocking (join k))).emit (Effect.sleep_ms 500)) := by
  rw [connect_loop, append_stars_eq ls h]
  simp only [hj, if_false]

/-- Outcome of the retry loop started with `r` retries left at attempt `k`:
it returns after `n` calls of the join, either `n = r` calls that all failed,
with the failure message, or `n <= r` calls of which only the last succeeded,
with the success message. -/
theorem connect_loop_outcome (join : Nat → Int) :
    ∀ (r ls k : Nat) (w : World), ls < 4 →
      ∃ w' n, connect_loop join r ls k w = some w' ∧
        join_calls w'.log = join_calls w.log + n ∧
        ((n = r ∧ (∀ i, i < r → join (k + i) ≠ 0) ∧
            w'.shown = some "Falha ao conectar ao Wi-Fi".toList) ∨
          (1 ≤ n ∧ n ≤ r ∧ join (k + (n - 1)) = 0 ∧ (∀ i, i + 1 < n → join (k + i) ≠ 0) ∧
            w'.shown = some "Wi-Fi conectado!".toList)) := by
  intro r
  induction r with
  | zero =>
    intro ls k w _
    refine ⟨display_message w "Falha ao conectar ao Wi-Fi".toList, 0, rfl, ?_,
      Or.inl ⟨rfl, fun i hi => absurd hi (Nat.not_lt_zero i), rfl⟩⟩
    rw [log_display_message, join_calls_append]
    rfl
  | succ r ih =>
    intro ls k w h
    by_cases hj : join k = 0
    · refine ⟨_, 1, connect_loop_success join r ls k w h hj, ?_,
        Or.inr ⟨le_refl 1, by omega, by simpa using hj, fun i hi => by omega, rfl⟩⟩
      rw [log_display_message, log_emit, log_display_message]
      simp only [join_calls_append]
      simp [join_calls]
    · obtain ⟨w', n, h1, h2, h3⟩ := ih ((ls + 1) % 4) (k + 1)
        (((display_message w ("Conectando ao Wi-Fi".toList ++ List.replicate ls '*')).emit
          (Effect.wifi_connect_blocking (join k))).emit (Effect.sleep_ms 500))
        (Nat.mod_lt _ (by norm_num))
      refine ⟨w', n + 1, ?_, ?_, ?_⟩
      · rw [connect_loop_failure join r ls k w h hj]
        exact h1
      · rw [h2, log_emit, log_emit, log_display_message]
        simp only [join_calls_append]
        simp [join_calls]
        omega
      · rcases h3 with ⟨hn, hall, hs⟩ | ⟨hn1, hle, hz, hall, hs⟩
        · refine Or.inl ⟨by omega, ?_, hs⟩
          intro i hi
          cases i with
          | zero => simpa using hj
          | succ i =>
            have := hall i (by omega)
            rwa [show k + (i + 1) = k + 1 + i by omega]
        · refine Or.inr ⟨by omega, by omega, ?_, ?_, hs⟩
          · rw [show k + (n + 1 - 1) = k + 1 + (n - 1) by omega]
            exact hz
          · intro i hi
            cases i with
            | zero => simpa using hj
            | succ i =>
              have := hall i (by omega)
              rwa [show k + (i + 1) = k + 1 + i by omega]

/-- What the retry loop draws: the two final messages and loading messages
with at most three asterisks. -/
theorem connect_loop_drawn (join : Nat → Int) :
    ∀ (r ls k : Nat) (w w' : World), ls < 4 → connect_loop join r ls k w = some w' →
      ∃ l, w'.log = w.log ++ l ∧
        ∀ s, s ∈ drawn l → s = "Falha ao conectar ao Wi-Fi".toList ∨
          s = "Wi-Fi conectado!".toList ∨
          ∃ j, j < 4 ∧ s = "Conectando ao Wi-Fi".toList ++ List.replicate j '*' := by
  intro r
  induction r with
  | zero =>
    intro ls k w w' _ hw
    have hw' : display_message w "Falha ao conectar ao Wi-Fi".toList = w' := by
      simpa [connect_loop] using hw
    subst hw'
    refine ⟨_, log_display_message w _, ?_⟩
    intro s hs
    simp [drawn] at hs
    exact Or.inl hs
  | succ r ih =>
    intro ls k w w' h hw
    by_cases hj : join k = 0
    · rw [connect_loop_success join r ls k w h hj] at hw
      have hw' := Option.some.inj hw
      subst hw'
      refine ⟨_, by rw [log_display_message, log_emit, log_display_message,
        List.append_assoc, List.append_assoc], ?_⟩
      intro s hs
      simp [drawn] at hs
      rcases hs with hs | hs
      · exact Or.inr (Or.inr ⟨ls, h, hs⟩)
      · exact Or.inr (Or.inl hs)
    · rw [connect_loop_failure join r ls k w h hj] at hw
      obtain ⟨l, hl, hd⟩ := ih ((ls + 1) % 4) (k + 1) _ w' (Nat.mod_lt _ (by norm_num)) hw
      refine ⟨_, by rw [hl, log_emit, log_emit, log_display_message, List.append_assoc,
        List.append_assoc, List.append_assoc], ?_⟩
      intro s hs
      rw [drawn_append, drawn_append, drawn_append] at hs
      simp [drawn] at hs
      rcases hs with hs | hs
      · exact Or.inr (Or.inr ⟨ls, h, hs⟩)
      · exact hd s hs

/-- C9: `connect_to_wifi` always returns, after `n <= 5` calls of the blocking
join; if attempt `i < 5` is the first that succeeds, exactly `i + 1` calls are
made and `Wi-Fi conectado!` is shown; `Falha ao conectar ao Wi-Fi` is shown
exactly when 5 calls were made and the 5 attempts failed. -/
theorem connect_to_wifi_spec (join : Nat → Int) (w : World) :
    ∃ w' n, connect_to_wifi join w = some w' ∧
      join_calls w'.log = join_calls w.log + n ∧ n ≤ 5 ∧
      (∀ i, i < 5 → join i = 0 → (∀ j, j < i → join j ≠ 0) →
        n = i + 1 ∧ w'.shown = some "Wi-Fi conectado!".toList) ∧
      (w'.shown = some "Falha ao conectar ao Wi-Fi".toList ↔
        n = 5 ∧ ∀ i, i < 5 → join i ≠ 0) := by
  obtain ⟨w', n, h1, h2, h3⟩ := connect_loop_outcome join 5 0 0 w (by norm_num)
  refine ⟨w', n, h1, h2, ?_, ?_, ?_⟩
  · rcases h3 with ⟨hn, _, _⟩ | ⟨_, hle, _, _, _⟩ <;> omega
  · intro i hi hz hbefore
    rcases h3 with ⟨_, hall, _⟩ | ⟨hn1, hle, hlast, hall, hs⟩
    · exact absurd hz (by simpa using hall i hi)
    · simp only [Nat.zero_add] at hlast hall
      refine ⟨?_, hs⟩
      rcases Nat.lt_trichotomy (n - 1) i with hlt | heq | hgt
      · exact absurd hlast (hbefore (n - 1) hlt)
      · omega
      · exact absurd hz (hall i (by omega))
  · rcases h3 with ⟨hn, hall, hs⟩ | ⟨hn1, hle, hlast, hall, hs⟩
    · simp only [Nat.zero_add] at hall
      exact ⟨fun _ => ⟨hn, hall⟩, fun _ => hs⟩
    · simp only [Nat.zero_add] at hlast
      constructor
      · intro hf
        rw [hs] at hf
        exact absurd hf (by decide)
      · rintro ⟨_, hall5⟩
        exact absurd hlast (hall5 (n - 1) (by omega))

/-- C10: in a round of the retry loop that starts with `loading_step < 4` the
loading message is the 19-byte text and `loading_step` asterisks, at most 22
bytes, and fits `loading_msg[32]` with its NUL; the next round starts with a
step below 4 again, so the loop, and `connect_to_wifi`, which starts it at
step 0, never write past the buffer, and every loading message drawn has the
text and at most three asterisks. -/
theorem loading_msg_fits (join : Nat → Int) (retries loading_step attempt : Nat) (w : World)
    (h : loading_step < 4) :
    append_stars loading_step (snprintf 32 "Conectando ao Wi-Fi".toList []) =
      some ("Conectando ao Wi-Fi".toList ++ List.replicate loading_step '*') ∧
    ("Conectando ao Wi-Fi".toList ++ List.replicate loading_step '*').length =
      19 + loading_step ∧
    19 + loading_step ≤ 22 ∧ 22 + 1 ≤ 32 ∧
    (loading_step + 1) % 4 < 4 ∧
    (∃ w' l, connect_loop join retries loading_step attempt w = some w' ∧ w'.log = w.log ++ l ∧
      ∀ s, s ∈ drawn l → s = "Falha ao conectar ao Wi-Fi".toList ∨
        s = "Wi-Fi conectado!".toList ∨
        ∃ j, j < 4 ∧ s = "Conectando ao Wi-Fi".toList ++ List.replicate j '*') ∧
    (∃ w', connect_to_wifi join w = some w') := by
  refine ⟨append_stars_eq loading_step h, by simp; omega, by omega, by norm_num,
    Nat.mod_lt _ (by norm_num), ?_, ?_⟩
  · obtain ⟨w', n, h1, _⟩ := connect_loop_outcome join retries loading_step attempt w h
    obtain ⟨l, hl, hd⟩ := connect_loop_drawn join retries loading_step attempt w w' h h1
    exact ⟨w', l, h1, hl, hd⟩
  · obtain ⟨w', n, h1, _⟩ := connect_loop_outcome join 5 0 0 w (by norm_num)
    exact ⟨w', h1⟩

theorem loading_msg_fits_witness :
    append_stars 3 (snprintf 32 "Conectando ao Wi-Fi".toList []) =
      some ("Conectando ao Wi-Fi".toList ++ List.replicate 3 '*') ∧
    ("Conectando ao Wi-Fi".toList ++ List.replicate 3 '*').length = 19 + 3 ∧
    19 + 3 ≤ 22 ∧ 22 + 1 ≤ 32 ∧
    (3 + 1) % 4 < 4 ∧
    (∃ w' l, connect_loop (fun _ => 1) 5 3 0 World.init = some w' ∧ w'.log = World.init.log ++ l ∧
      ∀ s, s ∈ drawn l → s = "Falha ao conectar ao Wi-Fi".toList ∨
        s = "Wi-Fi conectado!".toList ∨
        ∃ j, j < 4 ∧ s = "Conectando ao Wi-Fi".toList ++ List.replicate j '*') ∧
    (∃ w', connect_to_wifi (fun _ => 1) World.init = some w') :=
  loading_msg_fits (fun _ => 1) 5 3 0 World.init (by decide)

/-! ## Outstanding connections -/

theorem pcbs_display_message (w : World) (msg : CString) :
    (display_message w msg).pcbs = w.pcbs := rfl

theorem dns_pending_display_message (w : World) (msg : CString) :
    (display_message w msg).dns_pending = w.dns_pending := rfl

/-- An update that does not reopen a control block does not raise the number
of outstanding connections. -/
theorem countP_update_pcb_le (f : Pcb → Pcb) :
    ∀ (l : List Pcb) (i : Nat), (∀ p, l[i]? = some p → (f p).isOpen = true → p.isOpen = true) →
      (update_pcb l i f).countP Pcb.isOpen ≤ l.countP Pcb.isOpen := by
  intro l
  induction l with
  | nil => intro i _; simp [update_pcb]
  | cons p ps ih =>
    intro i h
    cases i with
    | zero =>
      have hp := h p (by simp)
      simp only [update_pcb, List.countP_cons]
      by_cases hf : (f p).isOpen = true
      · simp [hf, hp hf]
      · simp [hf]
    | succ i =>
      have := ih i (fun q hq => h q (by simpa using hq))
      simp only [update_pcb, List.countP_cons]
      omega

/-- Updating the control block that was appended last. -/
theorem update_pcb_append_last (f : Pcb → Pcb) (p : Pcb) :
    ∀ l : List Pcb, update_pcb (l ++ [p]) l.length f = l ++ [f p] := by
  intro l
  induction l with
  | nil => rfl
  | cons q qs ih => simp [update_pcb, ih]

theorem update_pcb_update_pcb (f g : Pcb → Pcb) :
    ∀ (l : List Pcb) (i : Nat), update_pcb (update_pcb l i f) i g = update_pcb l i (fun p => g (f p)) := by
  intro l
  induction l with
  | nil => intro i; rfl
  | cons q qs ih =>
    intro i
    cases i with
    | zero => rfl
    | succ i => simp [update_pcb, ih]

/-- The two branches of the loop queue one lookup each and touch no
connection. -/
theorem in_flight_loop_iteration (w : World) (pressed : Bool) (rb rt : Nat) :
    in_flight (loop_iteration w pressed rb rt) =
      in_flight w + starts w (Event.loop pressed rb rt) := by
  cases pressed <;> cases htf : w.timer_fired <;>
    simp [loop_iteration, button_branch, timer_branch, read_temperature, update_leds_eq,
      display_message, dns_gethostbyname, World.emit, in_flight, outstanding, starts, htf] <;>
    omega

theorem in_flight_dns_found (w : World) (ipaddr : Option Ip) :
    in_flight (step w (Event.dns_found ipaddr)) ≤ in_flight w := by
  by_cases h : w.dns_pending = 0
  · simp [step, h]
  · cases ipaddr with
    | none =>
      simp only [step, if_neg h, dns_callback, in_flight, outstanding, pcbs_display_message,
        dns_pending_display_message]
      omega
    | some ip =>
      simp only [step, if_neg h, dns_callback, tcp_new, tcp_connect, in_flight, outstanding,
        World.emit, pcbs_display_message, dns_pending_display_message, update_pcb_append_last,
        List.countP_append]
      simp [Pcb.isOpen]
      omega

theorem pcbs_http_connected_ok (w : World) (tpcb raw : Nat) :
    (http_connected_callback w tpcb ERR_OK raw).1.pcbs =
      update_pcb w.pcbs tpcb (fun p => { p with recv_set := true }) := rfl

theorem dns_pending_http_connected_ok (w : World) (tpcb raw : Nat) :
    (http_connected_callback w tpcb ERR_OK raw).1.dns_pending = w.dns_pending := rfl

theorem http_connected_err (w : World) (tpcb : Nat) (err : Int) (raw : Nat) (h : err ≠ ERR_OK) :
    (http_connected_callback w tpcb err raw).1 =
      display_message w "Erro na conex\xc3\xa3o TCP".toList := by
  unfold http_connected_callback
  rw [if_pos h]

theorem in_flight_connected (w : World) (pcb : Nat) (err : Int) (raw : Nat) :
    in_flight (step w (Event.connected pcb err raw)) ≤ in_flight w := by
  simp only [step]
  split
  · next r hget =>
    by_cases herr : err = ERR_OK
    · subst herr
      rw [if_pos rfl]
      unfold in_flight outstanding
      rw [pcbs_http_connected_ok, dns_pending_http_connected_ok, update_pcb_update_pcb]
      have := countP_update_pcb_le
        (fun p => { { p with state := PcbState.established } with recv_set := true }) w.pcbs pcb
        (by
          intro p hp _
          rw [hget] at hp
          cases hp
          rfl)
      exact Nat.add_le_add_left this _
    · rw [if_neg herr, http_connected_err _ _ _ _ herr]
      unfold in_flight outstanding
      rw [pcbs_display_message, dns_pending_display_message]
      have := countP_update_pcb_le (fun p => { p with state := PcbState.failed }) w.pcbs pcb
        (by intro p _ hopen; simp [Pcb.isOpen] at hopen)
      exact Nat.add_le_add_left this _
  · exact Nat.le_refl _

theorem in_flight_recv (w : World) (pcb : Nat) (p : Option CString) :
    in_flight (step w (Event.recv pcb p)) ≤ in_flight w := by
  simp only [step]
  split
  · cases p with
    | none =>
      simp only [http_recv_callback, tcp_close, World.emit, in_flight, outstanding]
      have := countP_update_pcb_le (fun p => { p with state := PcbState.closed }) w.pcbs pcb
        (by intro p _ hopen; simp [Pcb.isOpen] at hopen)
      omega
    | some data =>
      simp only [http_recv_callback, pbuf_free, World.emit, in_flight, outstanding,
        pcbs_display_message, dns_pending_display_message]
      exact le_refl _
  · exact le_refl _

/-- An event raises the number of uploads in flight by at most the number of
uploads it starts. -/
theorem in_flight_step (w : World) (e : Event) :
    in_flight (step w e) ≤ in_flight w + starts w e := by
  cases e with
  | timer_irq => exact le_refl _
  | loop pressed rb rt => exact le_of_eq (in_flight_loop_iteration w pressed rb rt)
  | dns_found ipaddr => exact in_flight_dns_found w ipaddr
  | connected pcb err raw => exact in_flight_connected w pcb err raw
  | recv pcb p => exact in_flight_recv w pcb p

theorem in_flight_run_serialized :
    ∀ (evs : List Event) (w : World), in_flight w ≤ 1 → serialized w evs = true →
      in_flight (run w evs) ≤ 1 := by
  intro evs
  induction evs with
  | nil => intro w h _; exact h
  | cons e es ih =>
    intro w h hs
    simp only [serialized, Bool.and_eq_true, Bool.or_eq_true, beq_iff_eq] at hs
    have hstep := in_flight_step w e
    apply ih (step w e) _ hs.2
    rcases hs.1 with h0 | ⟨h1, hz⟩ <;> omega

/-- C6, as it stands, fails: two timer triggers whose lookups both succeed
before the first connection has completed leave two connections
outstanding. -/
theorem two_connections_outstanding :
    outstanding (run World.init [Event.timer_irq, Event.loop false 0 876,
      Event.dns_found (some 3232235777), Event.timer_irq, Event.loop false 0 876,
      Event.dns_found (some 3232235777)]) = 2 := by
  decide!

/-- C6 (amended): in every state reached from the initial one by a sequence of
events in which no upload is started while another is in flight (a lookup
pending or a connection neither closed nor failed), at most one upload is in
flight, so at most one connection is outstanding.  The program does not
enforce that condition: an event adds to the uploads in flight what it
starts. -/
theorem one_connection_when_serialized (evs : List Event)
    (h : serialized World.init evs = true) :
    outstanding (run World.init evs) ≤ 1 ∧
    in_flight (run World.init evs) ≤ 1 ∧
    (∀ (w : World) (e : Event), in_flight (step w e) ≤ in_flight w + starts w e) := by
  have := in_flight_run_serialized evs World.init (by decide) h
  refine ⟨?_, this, in_flight_step⟩
  unfold in_flight at this
  omega

theorem one_connection_when_serialized_witness :
    outstanding (run World.init [Event.timer_irq, Event.loop false 0 876,
      Event.dns_found (some 3232235777), Event.connected 0 ERR_OK 876, Event.recv 0 (some ['H']),
      Event.recv 0 none, Event.loop true 876 0, Event.dns_found (some 3232235777)]) ≤ 1 ∧
    in_flight (run World.init [Event.timer_irq, Event.loop false 0 876,
      Event.dns_found (some 3232235777), Event.connected 0 ERR_OK 876, Event.recv 0 (some ['H']),
      Event.recv 0 none, Event.loop true 876 0, Event.dns_found (some 3232235777)]) ≤ 1 ∧
    (∀ (w : World) (e : Event), in_flight (step w e) ≤ in_flight w + starts w e) :=
  one_connection_when_serialized _ (by decide!)

/-! ## Sensor -/

/-- The test `all_from p d lo` covers the numbers `lo, ..., lo + 2^d - 1`. -/
theorem all_from_sound (p : Nat → Bool) :
    ∀ (d lo : Nat), all_from p d lo = true → ∀ i, lo ≤ i → i < lo + 2 ^ d → p i = true := by
  intro d
  induction d with
  | zero =>
    intro lo h i h1 h2
    have : i = lo := by simp at h2; omega
    subst this
    exact h
  | succ d ih =>
    intro lo h i h1 h2
    simp only [all_from, Bool.and_eq_true] at h
    rw [pow_succ] at h2
    by_cases hi : i < lo + 2 ^ d
    · exact ih lo h.1 i h1 hi
    · exact ih (lo + 2 ^ d) h.2 i (by omega) (by omega)

/-- The exact formula is affine in the sample. -/
theorem celsius_spec_eq (raw : Nat) :
    celsius_spec raw = (9408695424 - 10869375 * (raw : ℚ)) / 44057600 := by
  unfold celsius_spec
  norm_num
  ring

/-- The last entry of `sensor_results` is the value `read_temperature`
returns. -/
theorem sensor_results_last (raw : Nat) :
    (sensor_results raw).getLast? = some (temperature_of_raw raw) := rfl

theorem voltage_mem_sensor_results (raw : Nat) : voltage_of_raw raw ∈ sensor_results raw := by
  simp [sensor_results, voltage_of_raw]

/-- The integer test `close_to_spec` gives the bound on the exact values. -/
theorem close_to_spec_sound (raw : Nat) (t : F32) (h : close_to_spec raw t = true) :
    |t.toRat - celsius_spec raw| ≤ 1 / 5000 := by
  obtain ⟨neg, m, e⟩ := t
  have hK : (0 : ℚ) < 44057600 * 2 ^ 149 := by positivity
  have h2 : (0 : ℚ) < 2 ^ 149 := by positivity
  simp only [close_to_spec, Nat.ble_eq] at h
  rw [celsius_spec_eq]
  cases neg
  · simp only [Bool.false_eq_true, if_false] at h
    have hd : F32.toRat ⟨false, m, e⟩ - (9408695424 - 10869375 * (raw : ℚ)) / 44057600 =
        (((((m * 2 ^ e : ℕ) : ℤ) * 44057600 -
          (9408695424 - 10869375 * (raw : ℤ)) * ((2 ^ 149 : ℕ) : ℤ) : ℤ)) : ℚ) /
          (44057600 * 2 ^ 149) := by
      unfold F32.toRat
      rw [if_neg Bool.false_ne_true]
      push_cast
      field_simp
      ring
    rw [hd, abs_div, abs_of_pos hK, div_le_div_iff₀ hK (by norm_num), ← Int.cast_abs,
      ← Nat.cast_natAbs]
    have h' : ((5000 * Int.natAbs (((m * 2 ^ e : ℕ) : ℤ) * 44057600 -
        (9408695424 - 10869375 * (raw : ℤ)) * ((2 ^ 149 : ℕ) : ℤ)) : ℕ) : ℚ) ≤
        ((44057600 * 2 ^ 149 : ℕ) : ℚ) := by exact_mod_cast h
    push_cast at h' ⊢
    linarith
  · simp only [if_true] at h
    have hd : F32.toRat ⟨true, m, e⟩ - (9408695424 - 10869375 * (raw : ℚ)) / 44057600 =
        ((((-((m * 2 ^ e : ℕ) : ℤ)) * 44057600 -
          (9408695424 - 10869375 * (raw : ℤ)) * ((2 ^ 149 : ℕ) : ℤ) : ℤ)) : ℚ) /
          (44057600 * 2 ^ 149) := by
      unfold F32.toRat
      rw [if_pos rfl]
      push_cast
      field_simp
      ring
    rw [hd, abs_div, abs_of_pos hK, div_le_div_iff₀ hK (by norm_num), ← Int.cast_abs,
      ← Nat.cast_natAbs]
    have h' : ((5000 * Int.natAbs ((-((m * 2 ^ e : ℕ) : ℤ)) * 44057600 -
        (9408695424 - 10869375 * (raw : ℤ)) * ((2 ^ 149 : ℕ) : ℤ)) : ℕ) : ℚ) ≤
        ((44057600 * 2 ^ 149 : ℕ) : ℚ) := by exact_mod_cast h
    push_cast at h' ⊢
    linarith

/-- What `sensor_check` establishes for one sample. -/
theorem sensor_check_sound (raw : Nat) (h : sensor_check raw = true) :
    (∀ x, x ∈ sensor_results raw → F32.isFinite x = true ∧ F32.isSubnormal x = false) ∧
    |(temperature_of_raw raw).toRat - celsius_spec raw| ≤ 1 / 5000 := by
  simp only [sensor_check, Bool.and_eq_true, List.all_eq_true, sensor_results_last,
    Bool.not_eq_true'] at h
  exact ⟨h.1, close_to_spec_sound raw _ h.2⟩

/-! The test of all 4096 samples, by evaluation, in 32 blocks of 128. -/
theorem sensor_check_chunk_0 : all_from sensor_check 7 (128 * 0) = true := by decide!
theorem sensor_check_chunk_1 : all_from sensor_check 7 (128 * 1) = true := by decide!
theorem sensor_check_chunk_2 : all_from sensor_check 7 (128 * 2) = true := by decide!
theorem sensor_check_chunk_3 : all_from sensor_check 7 (128 * 3) = true := by decide!
theorem sensor_check_chunk_4 : all_from sensor_check 7 (128 * 4) = true := by decide!
theorem sensor_check_chunk_5 : all_from sensor_check 7 (128 * 5) = true := by decide!
theorem sensor_check_chunk_6 : all_from sensor_check 7 (128 * 6) = true := by decide!
theorem sensor_check_chunk_7 : all_from sensor_check 7 (128 * 7) = true := by decide!
theorem sensor_check_chunk_8 : all_from sensor_check 7 (128 * 8) = true := by decide!
theorem sensor_check_chunk_9 : all_from sensor_check 7 (128 * 9) = true := by decide!
theorem sensor_check_chunk_10 : all_from sensor_check 7 (128 * 10) = true := by decide!
theorem sensor_check_chunk_11 : all_from sensor_check 7 (128 * 11) = true := by decide!
theorem sensor_check_chunk_12 : all_from sensor_check 7 (128 * 12) = true := by decide!
theorem sensor_check_chunk_13 : all_from sensor_check 7 (128 * 13) = true := by decide!
theorem sensor_check_chunk_14 : all_from sensor_check 7 (128 * 14) = true := by decide!
theorem sensor_check_chunk_15 : all_from sensor_check 7 (128 * 15) = true := by decide!
theorem sensor_check_chunk_16 : all_from sensor_check 7 (128 * 16) = true := by decide!
theorem sensor_check_chunk_17 : all_from sensor_check 7 (128 * 17) = true := by decide!
theorem sensor_check_chunk_18 : all_from sensor_check 7 (128 * 18) = true := by decide!
theorem sensor_check_chunk_19 : all_from sensor_check 7 (128 * 19) = true := by decide!
theorem sensor_check_chunk_20 : all_from sensor_check 7 (128 * 20) = true := by decide!
theorem sensor_check_chunk_21 : all_from sensor_check 7 (128 * 21) = true := by decide!
theorem sensor_check_chunk_22 : all_from sensor_check 7 (128 * 22) = true := by decide!
theorem sensor_check_chunk_23 : all_from sensor_check 7 (128 * 23) = true := by decide!
theorem sensor_check_chunk_24 : all_from sensor_check 7 (128 * 24) = true := by decide!
theorem sensor_check_chunk_25 : all_from sensor_check 7 (128 * 25) = true := by decide!
theorem sensor_check_chunk_26 : all_from sensor_check 7 (128 * 26) = true := by decide!
theorem sensor_check_chunk_27 : all_from sensor_check 7 (128 * 27) = true := by decide!
theorem sensor_check_chunk_28 : all_from sensor_check 7 (128 * 28) = true := by decide!
theorem sensor_check_chunk_29 : all_from sensor_check 7 (128 * 29) = true := by decide!
theorem sensor_check_chunk_30 : all_from sensor_check 7 (128 * 30) = true := by decide!
theorem sensor_check_chunk_31 : all_from sensor_check 7 (128 * 31) = true := by decide!

theorem sensor_check_chunks (k : Nat) (hk : k < 32) :
    all_from sensor_check 7 (128 * k) = true := by
  interval_cases k
  exacts [sensor_check_chunk_0, sensor_check_chunk_1, sensor_check_chunk_2, sensor_check_chunk_3,
    sensor_check_chunk_4, sensor_check_chunk_5, sensor_check_chunk_6, sensor_check_chunk_7,
    sensor_check_chunk_8, sensor_check_chunk_9, sensor_check_chunk_10, sensor_check_chunk_11,
    sensor_check_chunk_12, sensor_check_chunk_13, sensor_check_chunk_14, sensor_check_chunk_15,
    sensor_check_chunk_16, sensor_check_chunk_17, sensor_check_chunk_18, sensor_check_chunk_19,
    sensor_check_chunk_20, sensor_check_chunk_21, sensor_check_chunk_22, sensor_check_chunk_23,
    sensor_check_chunk_24, sensor_check_chunk_25, sensor_check_chunk_26, sensor_check_chunk_27,
    sensor_check_chunk_28, sensor_check_chunk_29, sensor_check_chunk_30, sensor_check_chunk_31]

/-- Every 12-bit sample passes `sensor_check`. -/
theorem sensor_check_all (raw : Nat) (h : raw ≤ 4095) : sensor_check raw = true := by
  have hk : raw / 128 < 32 := by omega
  have h1 : 128 * (raw / 128) ≤ raw := Nat.mul_div_le raw 128
  have h2 : raw < 128 * (raw / 128) + 2 ^ 7 := by
    have := Nat.div_add_mod raw 128
    have := Nat.mod_lt raw (show 0 < 128 by norm_num)
    norm_num
    omega
  exact all_from_sound sensor_check 7 _ (sensor_check_chunks (raw / 128) hk) raw h1 h2

theorem temperature_mem_sensor_results (raw : Nat) :
    temperature_of_raw raw ∈ sensor_results raw := by
  simp [sensor_results, temperature_of_raw, voltage_of_raw]

theorem voltage_2048 : voltage_of_raw 2048 = ⟨false, 13841203, 126⟩ := by decide!

/-- C4: for every sample `raw` in `[0, 4095]` `read_temperature` returns, after
selecting channel 4 and reading the converter, the value `temperature_of_raw
raw`; it is finite, as is every intermediate result (none is subnormal), and
it is within `1/5000` of the documented formula `0.527 * ((27 - (V - 0.706) /
0.001721) - 32)` with `V = raw * 3.3 / 4096` evaluated exactly.  For
`raw = 2048` the voltage computed is the binary32 number nearest to 1.65,
`13841203 / 2^23`. -/
theorem read_temperature_spec (w : World) (raw : Nat) (h : raw ≤ 4095) :
    (read_temperature w raw).2 = temperature_of_raw raw ∧
    (read_temperature w raw).1.log =
      w.log ++ [Effect.adc_select_input 4, Effect.adc_read raw] ∧
    F32.isFinite (temperature_of_raw raw) = true ∧
    (∀ x, x ∈ sensor_results raw → F32.isFinite x = true ∧ F32.isSubnormal x = false) ∧
    |(temperature_of_raw raw).toRat - celsius_spec raw| ≤ 1 / 5000 ∧
    voltage_of_raw 2048 = F32.lit 165 100 ∧
    (voltage_of_raw 2048).toRat = 13841203 / 2 ^ 23 ∧
    |(voltage_of_raw 2048).toRat - 1.65| ≤ 1 / 2 ^ 24 := by
  have hs := sensor_check_sound raw (sensor_check_all raw h)
  have hlit : F32.lit 165 100 = ⟨false, 13841203, 126⟩ := by decide!
  have hfin := (hs.1 _ (temperature_mem_sensor_results raw)).1
  have hrat : F32.toRat ⟨false, 13841203, 126⟩ = 13841203 / 2 ^ 23 := by
    norm_num [F32.toRat]
  refine ⟨?_, ?_, hfin, hs.1, hs.2, ?_, ?_, ?_⟩
  · simp only [read_temperature]
  · simp [read_temperature, World.emit]
  · rw [voltage_2048, hlit]
  · rw [voltage_2048, hrat]
  · rw [voltage_2048, hrat, abs_le]
    constructor <;> norm_num

theorem read_temperature_spec_witness :
    (read_temperature World.init 2048).2 = temperature_of_raw 2048 ∧
    (read_temperature World.init 2048).1.log =
      World.init.log ++ [Effect.adc_select_input 4, Effect.adc_read 2048] ∧
    F32.isFinite (temperature_of_raw 2048) = true ∧
    (∀ x, x ∈ sensor_results 2048 → F32.isFinite x = true ∧ F32.isSubnormal x = false) ∧
    |(temperature_of_raw 2048).toRat - celsius_spec 2048| ≤ 1 / 5000 ∧
    voltage_of_raw 2048 = F32.lit 165 100 ∧
    (voltage_of_raw 2048).toRat = 13841203 / 2 ^ 23 ∧
    |(voltage_of_raw 2048).toRat - 1.65| ≤ 1 / 2 ^ 24 :=
  read_temperature_spec World.init 2048 (by decide)
end BitDogLab
